import Mathlib

/-
Shallow embedding of `src/client/chromaClient.ts` (class `ChromaDbClient`,
the vector-store admin facade of vsce-chroma-explorer).

Modelling conventions:
- JavaScript numbers carried in embeddings are modelled as rationals (`JNum`);
  the facade never computes with them, it only tests emptiness and passes them
  through, so the claims are insensitive to the numeric representation.
- `undefined`/`null` fields become `Option`; both collapse to `none`, matching
  the facade, which folds `null` into `undefined` with `?? undefined` wherever
  the distinction could surface.
- Each awaited SDK call is an oracle parameter: `Except Err α` for a call whose
  failure the facade may observe, or a plain function for `getRecord` reuse
  (which never throws). Constructing an SDK client object (`new SDKChromaClient`)
  performs no I/O and is not modelled as fallible.
- A thrown JS exception is `Except.error`; `throw new Error('not connected')`
  is `Err.notConnected`.
-/

namespace ChromaExplorer

/-- JS number as carried in embedding vectors. -/
abbrev JNum := Rat

/-- Metadata object: a string-keyed mapping, modelled as an association list.
`Object.keys(...).length > 0` becomes list non-emptiness. -/
abbrev Metadata := List (String × String)

/-- The `ChromaRecord` type of chromaClient.ts:
`{ id: string; document?: string; metadata?: any; embedding?: number[] }`. -/
structure ChromaRecord where
  id : String
  document : Option String
  metadata : Option Metadata
  embedding : Option (List JNum)
deriving Repr, DecidableEq

/-- A `Partial<ChromaRecord>`: every field, `id` included, may be absent. -/
structure RecordPatch where
  id : Option String
  document : Option String
  metadata : Option Metadata
  embedding : Option (List JNum)
deriving Repr, DecidableEq

/-- Errors surfaced by the facade: its own `new Error('not connected')`, or an
uninterpreted failure bubbling up from the backing store / SDK. -/
inductive Err where
  | notConnected
  | store (msg : String)
deriving Repr, DecidableEq

/-- The connection configuration held in `this.config`. -/
structure ConnectionConfig where
  host : Option String
  port : Option Nat
  ssl : Option Bool
  tenant : Option String
  database : Option String
  apiKey : Option String
deriving Repr, DecidableEq

/-- The facade's instance state: `connected`, `config`, and the two session
objects (`sdkClient`, `adminClient`), modelled by their presence. -/
structure ClientState where
  connected : Bool
  config : ConnectionConfig
  sdkClient : Option Unit
  adminClient : Option Unit
deriving Repr, DecidableEq

/-- JS `v || d` on an optional string: `undefined` and the empty string are
falsy, any other string is truthy. -/
def jsOrString (v : Option String) (d : String) : String :=
  match v with
  | some s => if s = "" then d else s
  | none => d

/-- Outcome of the three steps `connect` attempts inside its `try`:
constructing the SDK client, constructing the admin client, and the awaited
`version()` liveness check. -/
structure ConnectAttempt where
  mkSdk : Except Err Unit
  mkAdmin : Except Err Unit
  version : Except Err String
deriving Repr

/-- Whether every step of the connect attempt succeeded. -/
def ConnectAttempt.allOk (att : ConnectAttempt) : Bool :=
  att.mkSdk.toBool && att.mkAdmin.toBool && att.version.toBool

/-- The `connect` method. Note that `this.config = { ...(cfg || {}) }` runs
before the `try`, so the config is replaced whether or not the attempt
succeeds; on any failure the catch clears `connected` and both session
objects and returns `false`. Returns the new state and the boolean result. -/
def connect (st : ClientState) (cfg : ConnectionConfig) (att : ConnectAttempt) :
    ClientState × Bool :=
  let st := { st with config := cfg }
  if att.allOk then
    ({ st with connected := true, sdkClient := some (), adminClient := some () }, true)
  else
    ({ st with connected := false, sdkClient := none, adminClient := none }, false)

/-- The `isConnected` method: a pure read of `this.connected`. -/
def isConnected (st : ClientState) : Bool :=
  st.connected

/-- The `listTenants` method. `identity` is the awaited
`sdkClient.getUserIdentity()` oracle, reduced to its `.tenant` field
(`Option String`, since the field may be absent or empty). -/
def listTenants (st : ClientState) (identity : Except Err (Option String)) :
    List String :=
  if !st.connected then []
  else
    match identity with
    | .ok t => [jsOrString t (jsOrString st.config.tenant "default_tenant")]
    | .error _ => [jsOrString st.config.tenant "default_tenant"]

/-- One element of the `adminClient.listDatabases` response; `str` is its
`String(d)` rendering, the last fallback in `d.name ?? d.id ?? String(d)`. -/
structure DbItem where
  name : Option String
  id : Option String
  str : String
deriving Repr, DecidableEq

/-- The `listDatabases` method. `fetch` is the awaited
`adminClient.listDatabases({tenant})` oracle. -/
def listDatabases (st : ClientState) (fetch : Except Err (List DbItem)) :
    List String :=
  if !st.connected || st.adminClient.isNone then []
  else
    match fetch with
    | .ok dbs => dbs.map fun d => ((d.name).orElse fun _ => d.id).getD d.str
    | .error _ => []

/-- One element of the SDK `listCollections` response; `id`, `name` and
`count` may each be absent. -/
structure SdkCollection where
  id : Option String
  name : Option String
  count : Option Nat
deriving Repr, DecidableEq

/-- The collection shape `listCollections` returns:
`{ id: c.id ?? c.name, name: c.name ?? c.id, count: c.count ?? 0 }`. -/
structure CollectionRef where
  id : Option String
  name : Option String
  count : Nat
deriving Repr, DecidableEq

/-- The `listCollections` method. `fetch` is the awaited
`client.listCollections()` oracle on the scoped session. -/
def listCollections (st : ClientState) (fetch : Except Err (List SdkCollection)) :
    List CollectionRef :=
  if !st.connected then []
  else
    match fetch with
    | .ok cols =>
      cols.map fun c =>
        { id := (c.id).orElse fun _ => c.name
          name := (c.name).orElse fun _ => c.id
          count := c.count.getD 0 }
    | .error _ => []

/-- The loop guard of `resolveCollectionId`:
`item.id === collectionOrId || item.name === collectionOrId`. -/
def collectionMatches (needle : String) (c : SdkCollection) : Bool :=
  c.id == some needle || c.name == some needle

/-- The private `resolveCollectionId` method. On the first matching item it
returns `item.id ?? item.name` (the guard guarantees one of the two is the
needle, so the final `getD` default is unreachable); with no match, a failed
listing, or a disconnected facade it returns the input unchanged. -/
def resolveCollectionId (st : ClientState) (fetch : Except Err (List SdkCollection))
    (collectionOrId : String) : String :=
  if !st.connected then collectionOrId
  else
    match fetch with
    | .ok cols =>
      match cols.find? (collectionMatches collectionOrId) with
      | some c => (((c.id).orElse fun _ => c.name)).getD collectionOrId
      | none => collectionOrId
    | .error _ => collectionOrId

/-- The `createCollection` method. `op` is the awaited
`client.createCollection({name})` oracle; its failure is rethrown. -/
def createCollection (st : ClientState) (op : Except Err Unit) : Except Err Bool :=
  if !st.connected then .error .notConnected
  else do
    let _ ← op
    return true

/-- The `deleteCollection` method, shaped exactly like `createCollection`. -/
def deleteCollection (st : ClientState) (op : Except Err Unit) : Except Err Bool :=
  if !st.connected then .error .notConnected
  else do
    let _ ← op
    return true

/-- The `renameCollection` method: `getCollection({name: oldName})` then
`col.modify({name: newName})`; a failure of either is rethrown. -/
def renameCollection (st : ClientState) (getCol : Except Err Unit)
    (modify : Except Err Unit) : Except Err Bool :=
  if !st.connected then .error .notConnected
  else do
    let _ ← getCol
    let _ ← modify
    return true

/-- The parallel-array response of `col.get(...)`: each of the four arrays may
itself be missing (`res.xs || []`), and individual entries may be null. -/
structure GetResult where
  ids : Option (List String)
  documents : Option (List (Option String))
  metadatas : Option (List (Option Metadata))
  embeddings : Option (List (Option (List JNum)))
deriving Repr, DecidableEq

/-- The positional zip loop of `listRecords`: one output record per id, taking
the i-th entry of each parallel array, with a null or missing entry mapped to
an absent field (`(xs)[i] ?? undefined`). -/
def zipRecords (ids : List String) (docs : List (Option String))
    (metas : List (Option Metadata)) (embs : List (Option (List JNum))) :
    List ChromaRecord :=
  (List.range ids.length).map fun i =>
    { id := ids.getD i ""
      document := docs.getD i none
      metadata := metas.getD i none
      embedding := embs.getD i none }

/-- The `listRecords` method. `getCol` is the awaited `getCollection` oracle
and `fetch` the awaited `col.get({limit, offset, include})` oracle; a failure
of either lands in the catch and yields `[]`. -/
def listRecords (st : ClientState) (getCol : Except Err Unit)
    (fetch : Except Err GetResult) : List ChromaRecord :=
  if !st.connected then []
  else
    match (do let _ ← getCol; fetch : Except Err GetResult) with
    | .ok res =>
      zipRecords (res.ids.getD []) (res.documents.getD [])
        (res.metadatas.getD []) (res.embeddings.getD [])
    | .error _ => []

/-- The argument object `addRecord` passes to `col.add`: `metadatas` is the
only conditional field, the other three are always present. -/
structure AddArgs where
  ids : List String
  documents : List String
  embeddings : List (List JNum)
  metadatas : Option (List Metadata)
deriving Repr, DecidableEq

/-- The `embeddingToSend` selection of `addRecord`:
`(Array.isArray(e) && e.length > 0) ? e : [0.0]`. -/
def embeddingToSend (e : Option (List JNum)) : List JNum :=
  match e with
  | some v => if v.length > 0 then v else [0]
  | none => [0]

/-- The argument object `addRecord` builds for `col.add`: `id` falls back to
the generated one when absent or empty (`record.id || generated`), `documents`
is always present with `record.document || ''`, `embeddings` always carries
`embeddingToSend`, and `metadatas` is attached only when `record.metadata` is
defined and has at least one key. -/
def addRecordArgs (record : RecordPatch) (genId : String) : AddArgs :=
  { ids := [jsOrString record.id genId]
    documents := [jsOrString record.document ""]
    embeddings := [embeddingToSend record.embedding]
    metadatas :=
      match record.metadata with
      | some m => if m.length > 0 then some [m] else none
      | none => none }

/-- The `addRecord` method. `genId` stands for the time-and-randomness id the
method generates; `getOrCreate` is the awaited `getOrCreateCollection` oracle
and `add` the awaited `col.add` oracle, a function of the argument object so
that what is sent is observable. Failures of either are rethrown. -/
def addRecord (st : ClientState) (record : RecordPatch) (genId : String)
    (getOrCreate : Except Err Unit) (add : AddArgs → Except Err Unit) :
    Except Err String :=
  if !st.connected then .error .notConnected
  else do
    let _ ← getOrCreate
    let _ ← add (addRecordArgs record genId)
    return jsOrString record.id genId

/-- The `getRecord` method. `getCol` and `fetch` are the awaited
`getCollection` and `col.get({ids: [id], include})` oracles; any failure, or
an empty `ids` array, yields `undefined`. -/
def getRecord (st : ClientState) (getCol : Except Err Unit)
    (fetch : Except Err GetResult) : Option ChromaRecord :=
  if !st.connected then none
  else
    match (do let _ ← getCol; fetch : Except Err GetResult) with
    | .ok res =>
      match res.ids.getD [] with
      | [] => none
      | i0 :: _ =>
        some { id := i0
               document := (res.documents.getD []).getD 0 none
               metadata := (res.metadatas.getD []).getD 0 none
               embedding := (res.embeddings.getD []).getD 0 none }
    | .error _ => none

/-- The query options `queryCollection` receives. -/
structure QueryRequest where
  queryTexts : Option (List String)
  queryEmbeddings : Option (List (List JNum))
  nResults : Option Nat
deriving Repr, DecidableEq

/-- The argument object `queryCollection` passes to `col.query`: each query
field only when present, `nResults` defaulted to 5 (`opts.nResults ?? 5`). -/
structure QueryArgs where
  queryTexts : Option (List String)
  queryEmbeddings : Option (List (List JNum))
  nResults : Nat
deriving Repr, DecidableEq

/-- Assembly of the `col.query` arguments from the options. -/
def queryArgsFor (opts : QueryRequest) : QueryArgs :=
  { queryTexts := opts.queryTexts
    queryEmbeddings := opts.queryEmbeddings
    nResults := opts.nResults.getD 5 }

/-- The `queryCollection` method, polymorphic in the store's result shape ρ,
which it passes through unmodified; a disconnected facade or any failure
yields the empty-array sentinel, modelled as `none`. -/
def queryCollection {ρ : Type} (st : ClientState) (opts : QueryRequest)
    (getCol : Except Err Unit) (query : QueryArgs → Except Err ρ) : Option ρ :=
  if !st.connected then none
  else
    match (do let _ ← getCol; query (queryArgsFor opts) : Except Err ρ) with
    | .ok r => some r
    | .error _ => none

/-- The `createTenant` method: requires both `connected` and an admin session,
then rethrows any failure of the awaited `adminClient.createTenant`. -/
def createTenant (st : ClientState) (op : Except Err Unit) : Except Err Bool :=
  if !st.connected || st.adminClient.isNone then .error .notConnected
  else do
    let _ ← op
    return true

/-- The `createDatabase` method, shaped exactly like `createTenant`. -/
def createDatabase (st : ClientState) (op : Except Err Unit) : Except Err Bool :=
  if !st.connected || st.adminClient.isNone then .error .notConnected
  else do
    let _ ← op
    return true

/-- The `deleteDatabase` method, shaped exactly like `createTenant`. -/
def deleteDatabase (st : ClientState) (op : Except Err Unit) : Except Err Bool :=
  if !st.connected || st.adminClient.isNone then .error .notConnected
  else do
    let _ ← op
    return true

/-- The argument object `updateRecord` passes to `col.update`: `ids` always
carries `[record.id]` (possibly `[undefined]`), the other three fields are
conditional. -/
structure UpdateArgs where
  ids : List (Option String)
  documents : Option (List String)
  metadatas : Option (List Metadata)
  embeddings : Option (List (List JNum))
deriving Repr, DecidableEq

/-- The embedding `updateRecord` recovers from the existing record when no
usable embedding was supplied: only when `record.id` is truthy does it call
`getRecord` (`fetch`), and only a present, non-empty embedding of the fetched
record is reused. -/
def existingEmbeddingFor (record : RecordPatch)
    (fetch : String → Option ChromaRecord) : Option (List JNum) :=
  match record.id with
  | some i =>
    if i = "" then none
    else
      match (fetch i).bind (fun r => r.embedding) with
      | some e => if e.length > 0 then some e else none
      | none => none
  | none => none

/-- The argument object `updateRecord` builds for `col.update`: `documents`
and `metadatas` pass through exactly when present; `embeddings` follows the
three-tier policy — the supplied embedding when non-empty, else the existing
record's embedding when fetchable and non-empty, else omitted. -/
def updateRecordArgs (record : RecordPatch)
    (fetch : String → Option ChromaRecord) : UpdateArgs :=
  { ids := [record.id]
    documents := record.document.map fun d => [d]
    metadatas := record.metadata.map fun m => [m]
    embeddings :=
      match record.embedding with
      | some e =>
        if e.length > 0 then some [e]
        else (existingEmbeddingFor record fetch).map fun x => [x]
      | none => (existingEmbeddingFor record fetch).map fun x => [x] }

/-- The `updateRecord` method. `getCol` is the awaited `getCollection` oracle,
`fetch` the behaviour of `this.getRecord` (which never throws, so the inner
try/catch around it is vacuous), and `update` the awaited `col.update` oracle.
Failures of `getCol` or `update` are rethrown. -/
def updateRecord (st : ClientState) (record : RecordPatch)
    (getCol : Except Err Unit) (fetch : String → Option ChromaRecord)
    (update : UpdateArgs → Except Err Unit) : Except Err Bool :=
  if !st.connected then .error .notConnected
  else do
    let _ ← getCol
    let _ ← update (updateRecordArgs record fetch)
    return true

/-- The `deleteRecord` method: `getCollection` then `col.delete({ids: [id]})`;
a failure of either is rethrown. -/
def deleteRecord (st : ClientState) (getCol : Except Err Unit)
    (del : Except Err Unit) : Except Err Bool :=
  if !st.connected then .error .notConnected
  else do
    let _ ← getCol
    let _ ← del
    return true

/-- C1: for every record passed to addRecord, the embedding sent to the
backing store is record.embedding when it is a non-empty array, otherwise the
single-element placeholder vector [0.0]; addRecord never sends an empty-length
embedding. -/
theorem addRecord_embedding_sent (record : RecordPatch) (genId : String) :
    (∀ e, record.embedding = some e → e ≠ [] →
      (addRecordArgs record genId).embeddings = [e]) ∧
    ((record.embedding = none ∨ record.embedding = some []) →
      (addRecordArgs record genId).embeddings = [[0]]) ∧
    (∀ v ∈ (addRecordArgs record genId).embeddings, v ≠ []) := by
  refine ⟨?_, ?_, ?_⟩
  · intro e he hne
    simp [addRecordArgs, embeddingToSend, he, List.length_pos.mpr hne]
  · rintro (h0 | h0) <;> simp [addRecordArgs, embeddingToSend, h0]
  · intro v hv
    simp only [addRecordArgs, List.mem_singleton] at hv
    subst hv
    rcases record.embedding with _ | e
    · simp [embeddingToSend]
    · rcases e with _ | ⟨x, xs⟩ <;> simp [embeddingToSend]

/-- Witness for addRecord_embedding_sent at concrete inputs: a supplied
non-empty embedding passes through, an absent one becomes [0.0], and the
placeholder is itself non-empty. -/
theorem addRecord_embedding_sent_check :
    (addRecordArgs ⟨none, none, none, some [(3 : JNum)]⟩ "g").embeddings = [[3]] ∧
    (addRecordArgs ⟨none, none, none, none⟩ "g").embeddings = [[0]] ∧
    ([(0 : JNum)] : List JNum) ≠ [] :=
  ⟨(addRecord_embedding_sent ⟨none, none, none, some [3]⟩ "g").1 [3] rfl (by simp),
   (addRecord_embedding_sent ⟨none, none, none, none⟩ "g").2.1 (Or.inl rfl),
   (addRecord_embedding_sent ⟨none, none, none, none⟩ "g").2.2 [0]
     (by simp [addRecordArgs, embeddingToSend])⟩

/-- C5: for every record passed to addRecord, the underlying write includes a
metadata field if and only if record.metadata is present and maps at least one
key; when metadata is absent or an empty mapping, the field is omitted rather
than sent as an empty mapping. -/
theorem addRecord_metadata_policy (record : RecordPatch) (genId : String) :
    ((addRecordArgs record genId).metadatas ≠ none ↔
      ∃ m, record.metadata = some m ∧ m ≠ []) ∧
    (∀ m, record.metadata = some m → m ≠ [] →
      (addRecordArgs record genId).metadatas = some [m]) ∧
    ((record.metadata = none ∨ record.metadata = some []) →
      (addRecordArgs record genId).metadatas = none) := by
  refine ⟨?_, ?_, ?_⟩
  · rcases hm : record.metadata with _ | m
    · simp [addRecordArgs, hm]
    · rcases m with _ | ⟨kv, rest⟩ <;> simp [addRecordArgs, hm]
  · intro m hm hne
    simp [addRecordArgs, hm, List.length_pos.mpr hne]
  · rintro (h0 | h0) <;> simp [addRecordArgs, h0]

/-- Witness for addRecord_metadata_policy at concrete inputs: a one-key
mapping is sent, an empty mapping is omitted. -/
theorem addRecord_metadata_policy_check :
    (addRecordArgs ⟨none, none, some [("k", "v")], none⟩ "g").metadatas
      = some [[("k", "v")]] ∧
    (addRecordArgs ⟨none, none, some [], none⟩ "g").metadatas = none :=
  ⟨(addRecord_metadata_policy ⟨none, none, some [("k", "v")], none⟩ "g").2.1
      [("k", "v")] rfl (by simp),
   (addRecord_metadata_policy ⟨none, none, some [], none⟩ "g").2.2 (Or.inr rfl)⟩

/-- C10: for every record passed to addRecord, the underlying write always
contains a documents field: record.document when it is a non-empty string, and
the empty string when document is absent or empty — never omitted the way
empty metadata is. -/
theorem addRecord_document_always_sent (record : RecordPatch) (genId : String) :
    (addRecordArgs record genId).documents = [jsOrString record.document ""] ∧
    (∀ d, record.document = some d → d ≠ "" →
      (addRecordArgs record genId).documents = [d]) ∧
    ((record.document = none ∨ record.document = some "") →
      (addRecordArgs record genId).documents = [""]) := by
  refine ⟨rfl, ?_, ?_⟩
  · intro d hd hne
    simp [addRecordArgs, jsOrString, hd, hne]
  · rintro (h0 | h0) <;> simp [addRecordArgs, jsOrString, h0]

/-- Witness for addRecord_document_always_sent at concrete inputs: a non-empty
document passes through, an absent one becomes the empty string. -/
theorem addRecord_document_always_sent_check :
    (addRecordArgs ⟨none, some "hello", none, none⟩ "g").documents = ["hello"] ∧
    (addRecordArgs ⟨none, none, none, none⟩ "g").documents = [""] :=
  ⟨(addRecord_document_always_sent ⟨none, some "hello", none, none⟩ "g").2.1
      "hello" rfl (by simp),
   (addRecord_document_always_sent ⟨none, none, none, none⟩ "g").2.2 (Or.inl rfl)⟩

/-- C2: for every record passed to updateRecord, the embedding included in
the update follows the three-tier policy: the supplied record.embedding when
it is a non-empty array; otherwise the existing embedding fetched via
getRecord for record.id when that fetch succeeds and yields a non-empty
embedding; otherwise the embeddings field is omitted from the update
entirely. -/
theorem updateRecord_embedding_policy (record : RecordPatch)
    (fetch : String → Option ChromaRecord) :
    (∀ e, record.embedding = some e → e ≠ [] →
      (updateRecordArgs record fetch).embeddings = some [e]) ∧
    (∀ i r e, (record.embedding = none ∨ record.embedding = some []) →
      record.id = some i → i ≠ "" → fetch i = some r → r.embedding = some e →
      e ≠ [] → (updateRecordArgs record fetch).embeddings = some [e]) ∧
    ((record.embedding = none ∨ record.embedding = some []) →
      existingEmbeddingFor record fetch = none →
      (updateRecordArgs record fetch).embeddings = none) := by
  refine ⟨?_, ?_, ?_⟩
  · intro e he hne
    simp [updateRecordArgs, he, List.length_pos.mpr hne]
  · intro i r e hemp hid hine hf hre hne
    have hex : existingEmbeddingFor record fetch = some e := by
      simp [existingEmbeddingFor, hid, hine, hf, hre, List.length_pos.mpr hne]
    rcases hemp with h0 | h0 <;> simp [updateRecordArgs, h0, hex]
  · intro hemp hex
    rcases hemp with h0 | h0 <;> simp [updateRecordArgs, h0, hex]

/-- Witness for updateRecord_embedding_policy at concrete inputs: one instance
per tier — a supplied embedding wins, a preserved existing embedding is reused
when the supplied one is empty, and the field is omitted when neither is
available. -/
theorem updateRecord_embedding_policy_check :
    (updateRecordArgs ⟨some "r1", none, none, some [(7 : JNum)]⟩
        (fun _ => none)).embeddings = some [[7]] ∧
    (updateRecordArgs ⟨some "r1", none, none, some []⟩
        (fun i => if i = "r1" then some ⟨"r1", none, none, some [(2 : JNum)]⟩
                  else none)).embeddings = some [[2]] ∧
    (updateRecordArgs ⟨some "r1", none, none, none⟩
        (fun _ => none)).embeddings = none :=
  ⟨(updateRecord_embedding_policy ⟨some "r1", none, none, some [7]⟩
      (fun _ => none)).1 [7] rfl (by simp),
   (updateRecord_embedding_policy ⟨some "r1", none, none, some []⟩
      (fun i => if i = "r1" then some ⟨"r1", none, none, some [2]⟩ else none)).2.1
      "r1" ⟨"r1", none, none, some [2]⟩ [2] (Or.inr rfl) rfl (by decide)
      (by simp) rfl (by simp),
   (updateRecord_embedding_policy ⟨some "r1", none, none, none⟩
      (fun _ => none)).2.2 (Or.inl rfl) (by simp [existingEmbeddingFor])⟩

/-- C3: with a disconnected facade every read operation returns an empty or
absent value without raising, and every mutating operation fails with the
"not connected" error. -/
theorem disconnected_ops {ρ : Type} (st : ClientState) (h : st.connected = false)
    (idOr : Except Err (Option String)) (dbOr : Except Err (List DbItem))
    (colOr : Except Err (List SdkCollection)) (getCol : Except Err Unit)
    (res : Except Err GetResult) (opts : QueryRequest)
    (q : QueryArgs → Except Err ρ) (record : RecordPatch) (genId : String)
    (add : AddArgs → Except Err Unit) (fetch : String → Option ChromaRecord)
    (upd : UpdateArgs → Except Err Unit) (op : Except Err Unit)
    (modify : Except Err Unit) :
    listTenants st idOr = [] ∧
    listDatabases st dbOr = [] ∧
    listCollections st colOr = [] ∧
    listRecords st getCol res = [] ∧
    getRecord st getCol res = none ∧
    queryCollection st opts getCol q = none ∧
    addRecord st record genId getCol add = .error .notConnected ∧
    updateRecord st record getCol fetch upd = .error .notConnected ∧
    deleteRecord st getCol op = .error .notConnected ∧
    createCollection st op = .error .notConnected ∧
    deleteCollection st op = .error .notConnected ∧
    renameCollection st getCol modify = .error .notConnected ∧
    createTenant st op = .error .notConnected ∧
    createDatabase st op = .error .notConnected ∧
    deleteDatabase st op = .error .notConnected := by
  simp [listTenants, listDatabases, listCollections, listRecords, getRecord,
    queryCollection, addRecord, updateRecord, deleteRecord, createCollection,
    deleteCollection, renameCollection, createTenant, createDatabase,
    deleteDatabase, h]

/-- Witness for disconnected_ops at a concrete disconnected state and concrete
oracles: a read comes back empty, a write fails with the not-connected
error. -/
theorem disconnected_ops_check :
    listTenants ⟨false, ⟨none, none, none, none, none, none⟩, none, none⟩
      (.ok (some "t")) = [] ∧
    createCollection ⟨false, ⟨none, none, none, none, none, none⟩, none, none⟩
      (.ok ()) = .error .notConnected := by
  have h := disconnected_ops (ρ := Nat)
    ⟨false, ⟨none, none, none, none, none, none⟩, none, none⟩ rfl
    (.ok (some "t")) (.ok []) (.ok []) (.ok ())
    (.ok ⟨none, none, none, none⟩) ⟨none, none, none⟩ (fun _ => .ok 0)
    ⟨none, none, none, none⟩ "g" (fun _ => .ok ()) (fun _ => none)
    (fun _ => .ok ()) (.ok ()) (.ok ())
  exact ⟨h.1, h.2.2.2.2.2.2.2.2.2.2.1⟩

/-- C4 counterexample: with a connected facade whose identity call fails,
listTenants returns the one-element fallback ["default_tenant"], not an empty
or absent result as the claim states for every read operation. -/
theorem listTenants_failure_not_empty :
    listTenants ⟨true, ⟨none, none, none, none, none, none⟩, some (), some ()⟩
      (.error (.store "unreachable")) = ["default_tenant"] ∧
    ("default_tenant" :: [] : List String) ≠ [] := by
  exact ⟨rfl, by simp⟩

/-- C4 amended: with a connected facade, store failures on the read/discovery
paths are swallowed — listDatabases, listCollections, listRecords, getRecord
and queryCollection degrade to an empty or absent result, resolveCollectionId
returns its input unchanged, and listTenants degrades to the one-element
fallback [config.tenant or "default_tenant"] — while a store failure on any
mutating/administrative path is propagated to the caller uninterpreted. -/
theorem error_policy {ρ : Type} (st : ClientState) (hc : st.connected = true)
    (ha : st.adminClient = some ()) (e : Err) (opts : QueryRequest)
    (record : RecordPatch) (genId : String) (input : String)
    (getCol : Except Err Unit) (res : Except Err GetResult)
    (q : QueryArgs → Except Err ρ)
    (fetch : String → Option ChromaRecord) (op : Except Err Unit) :
    listTenants st (.error e) = [jsOrString st.config.tenant "default_tenant"] ∧
    listDatabases st (.error e) = [] ∧
    listCollections st (.error e) = [] ∧
    resolveCollectionId st (.error e) input = input ∧
    listRecords st (.error e) res = [] ∧
    listRecords st getCol (.error e) = [] ∧
    getRecord st (.error e) res = none ∧
    getRecord st getCol (.error e) = none ∧
    queryCollection st opts (.error e) q = none ∧
    queryCollection st opts getCol (fun _ => (.error e : Except Err ρ)) = none ∧
    createCollection st (.error e) = .error e ∧
    deleteCollection st (.error e) = .error e ∧
    renameCollection st (.error e) op = .error e ∧
    renameCollection st (.ok ()) (.error e) = .error e ∧
    addRecord st record genId (.error e) (fun _ => op) = .error e ∧
    addRecord st record genId (.ok ()) (fun _ => .error e) = .error e ∧
    updateRecord st record (.error e) fetch (fun _ => op) = .error e ∧
    updateRecord st record (.ok ()) fetch (fun _ => .error e) = .error e ∧
    deleteRecord st (.error e) op = .error e ∧
    deleteRecord st (.ok ()) (.error e) = .error e ∧
    createTenant st (.error e) = .error e ∧
    createDatabase st (.error e) = .error e ∧
    deleteDatabase st (.error e) = .error e := by
  rcases getCol with ge | gu <;>
    simp [listTenants, listDatabases, listCollections, resolveCollectionId,
      listRecords, getRecord, queryCollection, createCollection,
      deleteCollection, renameCollection, addRecord, updateRecord,
      deleteRecord, createTenant, createDatabase, deleteDatabase, hc, ha,
      Bind.bind, Except.bind]

/-- Witness for error_policy at a concrete connected state and a concrete
store error: a failed listing degrades to empty, a failed record insert
propagates the same error. -/
theorem error_policy_check :
    listDatabases ⟨true, ⟨none, none, none, some "t0", none, none⟩, some (), some ()⟩
      (.error (.store "boom")) = [] ∧
    addRecord ⟨true, ⟨none, none, none, some "t0", none, none⟩, some (), some ()⟩
      ⟨none, none, none, none⟩ "g" (.ok ()) (fun _ => .error (.store "boom"))
      = .error (.store "boom") := by
  have h := error_policy (ρ := Nat)
    ⟨true, ⟨none, none, none, some "t0", none, none⟩, some (), some ()⟩ rfl rfl
    (.store "boom") ⟨none, none, none⟩ ⟨none, none, none, none⟩ "g" "c"
    (.ok ()) (.ok ⟨none, none, none, none⟩) (fun _ => .ok 0) (fun _ => none)
    (.ok ())
  exact ⟨h.2.1, h.2.2.2.2.2.2.2.2.2.2.2.2.2.2.2.1⟩

/-- C6: for a connected facade and a successful fetch, listRecords zips the
parallel result arrays positionally — one Record per id, and the i-th Record
carries the i-th id, document, metadata and embedding, with a null or missing
entry at position i mapped to an absent field. -/
theorem listRecords_positional_zip (st : ClientState) (hc : st.connected = true)
    (res : GetResult) :
    (listRecords st (.ok ()) (.ok res)).length = (res.ids.getD []).length ∧
    ∀ i, i < (res.ids.getD []).length →
      (listRecords st (.ok ()) (.ok res))[i]? =
        some { id := (res.ids.getD []).getD i ""
               document := (res.documents.getD []).getD i none
               metadata := (res.metadatas.getD []).getD i none
               embedding := (res.embeddings.getD []).getD i none } := by
  have hval : listRecords st (.ok ()) (.ok res) =
      zipRecords (res.ids.getD []) (res.documents.getD [])
        (res.metadatas.getD []) (res.embeddings.getD []) := by
    simp [listRecords, hc, Bind.bind, Except.bind]
  rw [hval]
  constructor
  · simp [zipRecords]
  · intro i hi
    have hlen : i < ((List.range (res.ids.getD []).length).map
        (fun i => ({ id := (res.ids.getD []).getD i ""
                     document := (res.documents.getD []).getD i none
                     metadata := (res.metadatas.getD []).getD i none
                     embedding := (res.embeddings.getD []).getD i none } :
                    ChromaRecord))).length := by
      simpa using hi
    rw [zipRecords, List.getElem?_eq_getElem hlen]
    simp

/-- Witness for listRecords_positional_zip at a concrete response whose
parallel arrays have nulls and are shorter than ids: the second record aligns
positionally and its missing fields are absent. -/
theorem listRecords_positional_zip_check :
    (listRecords ⟨true, ⟨none, none, none, none, none, none⟩, some (), some ()⟩
        (.ok ())
        (.ok ⟨some ["a", "b"], some [some "da", none], some [none], none⟩))[1]? =
      some ⟨"b", none, none, none⟩ := by
  have h := (listRecords_positional_zip
    ⟨true, ⟨none, none, none, none, none, none⟩, some (), some ()⟩ rfl
    ⟨some ["a", "b"], some [some "da", none], some [none], none⟩).2 1 (by simp)
  simpa using h

/-- C7: resolveCollectionId returns the found collection's id when the input
matches a known collection by name or id (in particular the input itself when
the match is by id), returns the input unchanged when no collection matches,
and returns the input unchanged when the listing fails or the facade is
disconnected. -/
theorem resolveCollectionId_policy (st : ClientState) (hc : st.connected = true)
    (cols : List SdkCollection) (input : String) :
    (∀ c, cols.find? (collectionMatches input) = some c →
      ∀ cid, c.id = some cid → resolveCollectionId st (.ok cols) input = cid) ∧
    ((∀ c ∈ cols, collectionMatches input c = false) →
      resolveCollectionId st (.ok cols) input = input) ∧
    (∀ e, resolveCollectionId st (.error e) input = input) ∧
    (∀ st2 : ClientState, st2.connected = false →
      ∀ f, resolveCollectionId st2 f input = input) := by
  refine ⟨?_, ?_, ?_, ?_⟩
  · intro c hfind cid hcid
    simp [resolveCollectionId, hc, hfind, hcid, Option.orElse]
  · intro hnone
    have hfind : cols.find? (collectionMatches input) = none :=
      List.find?_eq_none.mpr fun x hx => by simp [hnone x hx]
    simp [resolveCollectionId, hc, hfind]
  · intro e
    simp [resolveCollectionId, hc]
  · intro st2 h2 f
    simp [resolveCollectionId, h2]

/-- Witness for resolveCollectionId_policy at a concrete connected state and
listing: a known name resolves to its id, a known id resolves to itself, an
unknown input passes through unchanged. -/
theorem resolveCollectionId_policy_check :
    resolveCollectionId ⟨true, ⟨none, none, none, none, none, none⟩, some (), some ()⟩
      (.ok [⟨some "uuid-1", some "docs", some 3⟩]) "docs" = "uuid-1" ∧
    resolveCollectionId ⟨true, ⟨none, none, none, none, none, none⟩, some (), some ()⟩
      (.ok [⟨some "uuid-1", some "docs", some 3⟩]) "uuid-1" = "uuid-1" ∧
    resolveCollectionId ⟨true, ⟨none, none, none, none, none, none⟩, some (), some ()⟩
      (.ok [⟨some "uuid-1", some "docs", some 3⟩]) "other" = "other" :=
  ⟨(resolveCollectionId_policy _ rfl [⟨some "uuid-1", some "docs", some 3⟩]
      "docs").1 ⟨some "uuid-1", some "docs", some 3⟩ (by simp [collectionMatches])
      "uuid-1" rfl,
   (resolveCollectionId_policy _ rfl [⟨some "uuid-1", some "docs", some 3⟩]
      "uuid-1").1 ⟨some "uuid-1", some "docs", some 3⟩ (by simp [collectionMatches])
      "uuid-1" rfl,
   (resolveCollectionId_policy _ rfl [⟨some "uuid-1", some "docs", some 3⟩]
      "other").2.1 (by intro c hc2; simp at hc2; simp [hc2, collectionMatches])⟩

/-- C8: connect never raises — it is a total function into a state/boolean
pair — and resolves to true, marking the facade connected with both session
objects built, exactly when every step of the attempt succeeds; on any
failing step it resolves to false, marks the facade disconnected, and clears
the partially-built session objects. -/
theorem connect_total_boolean (st : ClientState) (cfg : ConnectionConfig)
    (att : ConnectAttempt) :
    ((connect st cfg att).2 = true ↔ att.allOk = true) ∧
    (att.allOk = true →
      connect st cfg att =
        ({ connected := true, config := cfg,
           sdkClient := some (), adminClient := some () }, true)) ∧
    (att.allOk = false →
      (connect st cfg att).1.connected = false ∧
      (connect st cfg att).1.sdkClient = none ∧
      (connect st cfg att).1.adminClient = none ∧
      (connect st cfg att).2 = false) := by
  rcases h : att.allOk <;> simp [connect, h]

/-- Witness for connect_total_boolean at concrete attempts: a fully
successful attempt connects and returns true; a failed liveness check
disconnects, clears the session objects, and returns false. -/
theorem connect_total_boolean_check :
    connect ⟨false, ⟨none, none, none, none, none, none⟩, none, none⟩
      ⟨some "h", some 8000, none, none, none, none⟩ ⟨.ok (), .ok (), .ok "1.0"⟩ =
      ({ connected := true, config := ⟨some "h", some 8000, none, none, none, none⟩,
         sdkClient := some (), adminClient := some () }, true) ∧
    (connect ⟨false, ⟨none, none, none, none, none, none⟩, none, none⟩
      ⟨some "h", some 8000, none, none, none, none⟩
      ⟨.ok (), .ok (), .error (.store "down")⟩).2 = false :=
  ⟨(connect_total_boolean ⟨false, ⟨none, none, none, none, none, none⟩, none, none⟩
      ⟨some "h", some 8000, none, none, none, none⟩ ⟨.ok (), .ok (), .ok "1.0"⟩).2.1
      rfl,
   ((connect_total_boolean ⟨false, ⟨none, none, none, none, none, none⟩, none, none⟩
      ⟨some "h", some 8000, none, none, none, none⟩
      ⟨.ok (), .ok (), .error (.store "down")⟩).2.2 rfl).2.2.2⟩

/-- C9 counterexample: a failed connect call does not leave the stored
configuration unchanged — starting from a state holding the old config, a
connect attempt with a new config whose very first step fails still replaces
the stored config with the new one. -/
theorem connect_failure_replaces_config :
    (connect ⟨true, ⟨some "oldhost", none, none, some "oldtenant", none, none⟩,
        some (), some ()⟩
      ⟨some "newhost", none, none, some "newtenant", none, none⟩
      ⟨.error (.store "refused"), .ok (), .ok "1"⟩).1.config =
      ⟨some "newhost", none, none, some "newtenant", none, none⟩ ∧
    (⟨some "newhost", none, none, some "newtenant", none, none⟩ :
        ConnectionConfig) ≠
      ⟨some "oldhost", none, none, some "oldtenant", none, none⟩ := by
  exact ⟨rfl, by simp⟩

/-- C9 amended: connect stores the supplied configuration unconditionally,
before attempting the session — so after a failed connect call the stored
configuration (and hence the tenant/database fallbacks used later) is the
newly supplied one, with the connected flag cleared and the session objects
reset. -/
theorem connect_stores_config_always (st : ClientState) (cfg : ConnectionConfig)
    (att : ConnectAttempt) :
    (connect st cfg att).1.config = cfg ∧
    (att.allOk = false →
      (connect st cfg att).1.connected = false ∧
      (connect st cfg att).1.sdkClient = none ∧
      (connect st cfg att).1.adminClient = none ∧
      (connect st cfg att).2 = false) := by
  rcases h : att.allOk <;> simp [connect, h]

/-- Witness for connect_stores_config_always at a concrete failing attempt:
the new config is stored even though the call returns false. -/
theorem connect_stores_config_always_check :
    (connect ⟨true, ⟨some "oldhost", none, none, none, none, none⟩, some (), some ()⟩
      ⟨some "newhost", none, none, none, none, none⟩
      ⟨.error (.store "refused"), .ok (), .ok "1"⟩).1.config =
      ⟨some "newhost", none, none, none, none, none⟩ ∧
    (connect ⟨true, ⟨some "oldhost", none, none, none, none, none⟩, some (), some ()⟩
      ⟨some "newhost", none, none, none, none, none⟩
      ⟨.error (.store "refused"), .ok (), .ok "1"⟩).2 = false :=
  ⟨(connect_stores_config_always
      ⟨true, ⟨some "oldhost", none, none, none, none, none⟩, some (), some ()⟩
      ⟨some "newhost", none, none, none, none, none⟩
      ⟨.error (.store "refused"), .ok (), .ok "1"⟩).1,
   ((connect_stores_config_always
      ⟨true, ⟨some "oldhost", none, none, none, none, none⟩, some (), some ()⟩
      ⟨some "newhost", none, none, none, none, none⟩
      ⟨.error (.store "refused"), .ok (), .ok "1"⟩).2 rfl).2.2.2⟩

end ChromaExplorer
